import Mathlib

/-!
# Verification of the Backstage Keycloak plugin backend

Shallow embedding of the service-side logic of the Keycloak plugin:
the admin-token cache and client CRUD of `KeycloakService`
(`plugins/keycloak-backend/src/service/KeycloakService.ts`), the Express
route handlers of `createRouter`
(`plugins/keycloak-backend/src/service/router.ts`), and the secret-event
ledger stored in the `keycloak_client_secret_history` table.

JavaScript idioms are translated explicitly:
* `undefined`/missing values are `Option.none`;
* `x || d` on a boolean is truthy-or (`jsOrBool`), on a string it treats
  `""` as falsy (`jsOrString`), and on an array it is `Option.getD`
  (an array, even `[]`, is always truthy, so only `undefined` defaults);
* `s.includes(pat)` is infix containment on the character list;
* an object-literal key that the source never writes is modelled as a
  field fixed to `none`.
-/

namespace KeycloakPlugin

/-- A free-form string→string attribute bag (the Keycloak `attributes`
map), modelled as an association list in insertion order. -/
abbrev Attrs := List (String × String)

/-- Lookup of a key in an attribute bag (first binding wins, as for a
JavaScript object where every key occurs once). -/
def attrsGet (a : Attrs) (k : String) : Option String :=
  (a.find? (fun p => p.1 == k)).map (·.2)

/-- Setting a key in an attribute bag: the JS object-spread
`{...old, k: v}` yields an object whose `k` is `v` and whose other keys
keep their old values. -/
def attrsSet (a : Attrs) (k v : String) : Attrs :=
  a.filter (fun p => p.1 != k) ++ [(k, v)]

/-- JS `x || d` for an optional boolean: returns `x` when truthy
(`true`), otherwise `d`. -/
def jsOrBool (x : Option Bool) (d : Bool) : Bool :=
  match x with
  | some true => true
  | _ => d

/-- JS `x || d` for an optional string: `undefined` and `""` are falsy. -/
def jsOrString (x : Option String) (d : String) : String :=
  match x with
  | some s => if s = "" then d else s
  | none => d

/-- Boolean infix containment on lists, the model of JS
`String.prototype.includes` (over the string's character list). -/
def isInfixOfB (pat : List Char) : List Char → Bool
  | [] => pat.isEmpty
  | c :: rest => pat.isPrefixOf (c :: rest) || isInfixOfB pat rest

/-- JS `s.includes(pat)`. -/
def jsIncludes (s pat : String) : Bool :=
  isInfixOfB pat.data s.data

/-! ## Client data and the upstream create payload

`KeycloakClient` (`KeycloakService.ts` lines 5–20) plus the `attributes`
bag that the router's `enriched` object adds before calling
`createClient` (the frontend `KeycloakClient` in the api client also
declares `attributes`). Optional TS fields are `Option`. -/

/-- The client data an HTTP caller supplies in the POST /clients body
(after the router has split off `realm`). -/
structure ClientData where
  clientId : String
  name : Option String := none
  description : Option String := none
  enabled : Option Bool := none
  protocol : Option String := none
  publicClient : Option Bool := none
  redirectUris : Option (List String) := none
  webOrigins : Option (List String) := none
  bearerOnly : Option Bool := none
  serviceAccountsEnabled : Option Bool := none
  authorizationServicesEnabled : Option Bool := none
  directAccessGrantsEnabled : Option Bool := none
  implicitFlowEnabled : Option Bool := none
  standardFlowEnabled : Option Bool := none
  attributes : Option Attrs := none
  deriving Repr, DecidableEq

/-- The JSON body `KeycloakService.createClient` POSTs to the upstream
admin API (`KeycloakService.ts` lines 110–125). The `attributes` field
records whether the serialized object carries an `attributes` key at
all (`none` = key absent from the object literal). -/
structure UpstreamPayload where
  clientId : String
  name : String
  description : Option String
  enabled : Bool
  protocol : String
  publicClient : Bool
  redirectUris : List String
  webOrigins : List String
  bearerOnly : Bool
  serviceAccountsEnabled : Bool
  authorizationServicesEnabled : Bool
  directAccessGrantsEnabled : Bool
  implicitFlowEnabled : Bool
  standardFlowEnabled : Bool
  attributes : Option Attrs
  deriving Repr, DecidableEq

/-- The router's POST /clients enrichment (`router.ts` lines 56–62):
`{...clientData, attributes: {...(clientData.attributes || {}),
createdBy: creator}}`. -/
def routerEnrich (clientData : ClientData) (creator : String) : ClientData :=
  { clientData with
    attributes := some (attrsSet (clientData.attributes.getD []) "createdBy" creator) }

/-- The payload object `createClient` builds and forwards upstream
(`KeycloakService.ts` lines 110–125). The object literal contains no
`attributes` key, so the field is `none` whatever the input holds. -/
def buildCreatePayload (clientData : ClientData) : UpstreamPayload :=
  { clientId := clientData.clientId
    name := jsOrString clientData.name clientData.clientId
    description := clientData.description
    enabled := clientData.enabled != some false
    protocol := jsOrString clientData.protocol "openid-connect"
    publicClient := jsOrBool clientData.publicClient false
    redirectUris := clientData.redirectUris.getD ["*"]
    webOrigins := clientData.webOrigins.getD ["*"]
    bearerOnly := jsOrBool clientData.bearerOnly false
    serviceAccountsEnabled := jsOrBool clientData.serviceAccountsEnabled false
    authorizationServicesEnabled := jsOrBool clientData.authorizationServicesEnabled false
    directAccessGrantsEnabled := jsOrBool clientData.directAccessGrantsEnabled true
    implicitFlowEnabled := jsOrBool clientData.implicitFlowEnabled false
    standardFlowEnabled := jsOrBool clientData.standardFlowEnabled true
    attributes := none }

/-- The complete body forwarded to the upstream IdP by a
POST /clients request: router enrichment followed by
`createClient`'s payload construction. -/
def forwardedCreateBody (clientData : ClientData) (creator : String) : UpstreamPayload :=
  buildCreatePayload (routerEnrich clientData creator)

/-! ## The admin token cache

`KeycloakService.getAccessToken` (`KeycloakService.ts` lines 59–102):
a cached token plus its expiry time in epoch milliseconds. -/

/-- The mutable token fields of `KeycloakService`:
`accessToken?: string` and `tokenExpiryTime?: number`. -/
structure TokenState where
  accessToken : Option String
  tokenExpiryTime : Option Int
  deriving Repr, DecidableEq

/-- What the upstream token endpoint does for one request: either the
POST succeeds with `access_token` and `expires_in` (seconds), or it
fails with an error rendered as `errMsg`. -/
structure TokenResponse where
  ok : Bool
  accessToken : String
  expiresIn : Int
  errMsg : String
  deriving Repr, DecidableEq

/-- JS truthiness of the cached fields: a string is truthy iff
non-empty, a number iff non-zero. -/
def tokenCacheValid (st : TokenState) (now : Int) : Bool :=
  match st.accessToken, st.tokenExpiryTime with
  | some tok, some e => tok != "" && e != 0 && decide (now < e)
  | _, _ => false

/-- One call to `getAccessToken` at time `now` (ms), with `resp`
describing the token endpoint's behaviour if contacted. Returns the
result, the new token state and the number of upstream authentication
requests issued (0 or 1). On a refresh failure the cached fields are
left untouched (the catch branch only logs and throws). -/
def getAccessToken (st : TokenState) (now : Int) (resp : TokenResponse) :
    Except String String × TokenState × Nat :=
  if tokenCacheValid st now then
    (Except.ok (st.accessToken.getD ""), st, 0)
  else if resp.ok then
    (Except.ok resp.accessToken,
      { accessToken := some resp.accessToken
        tokenExpiryTime := some (now + (resp.expiresIn - 60) * 1000) }, 1)
  else
    (Except.error ("Failed to authenticate with Keycloak: " ++ resp.errMsg), st, 1)

/-- A sequence of `getAccessToken` calls, each with its wall-clock time
and the token endpoint's behaviour for it; returns the final state and
the total number of upstream authentication requests issued. -/
def runGetToken : TokenState → List (Int × TokenResponse) → TokenState × Nat
  | st, [] => (st, 0)
  | st, (now, resp) :: rest =>
    let r := getAccessToken st now resp
    let s := runGetToken r.2.1 rest
    (s.1, r.2.2 + s.2)

/-! ## The upstream client registry

The upstream admin API is an external collaborator (spec §6): CRUD over
`/clients` with a 409 on a duplicate `clientId` within a realm. It is
modelled as a list of stored registrations in creation order. -/

/-- A client registration as stored by the upstream IdP. -/
structure Registration where
  id : String
  realm : String
  clientId : String
  name : Option String
  attributes : Attrs
  deriving Repr, DecidableEq

/-- What the upstream does with one create request. -/
inductive UpstreamCreateOutcome where
  | created
  | conflict
  | failure (msg : String)
  deriving Repr, DecidableEq

/-- Upstream create semantics (spec §6: 409 on duplicate `clientId`
within the realm, otherwise the registration is stored): the stored
registration keeps the payload's fields; `newId` is the
upstream-assigned id. -/
def upstreamCreate (reg : List Registration) (realm : String) (p : UpstreamPayload)
    (newId : String) : UpstreamCreateOutcome × List Registration :=
  if reg.any (fun r => r.realm == realm && r.clientId == p.clientId) then
    (.conflict, reg)
  else
    (.created, reg ++ [{ id := newId, realm := realm, clientId := p.clientId,
                         name := some p.name, attributes := p.attributes.getD [] }])

/-- `createClient`'s error mapping (`KeycloakService.ts` lines 134–140):
a 409 becomes `Client {clientId} already exists in realm {realm}`, any
other failure becomes `Failed to create client: {message}`. -/
def keycloakCreateResult (realm clientId : String) (o : UpstreamCreateOutcome) :
    Except String Unit :=
  match o with
  | .created => .ok ()
  | .conflict => .error ("Client " ++ clientId ++ " already exists in realm " ++ realm)
  | .failure msg => .error ("Failed to create client: " ++ msg)

/-- The router's status mapping for POST /clients (`router.ts` lines
65–72): 201 on success, otherwise 409 when the error message contains
`already exists`, else 500. -/
def createStatus (e : Except String Unit) : Nat :=
  match e with
  | .ok _ => 201
  | .error msg => if jsIncludes msg "already exists" then 409 else 500

/-- End-to-end POST /clients pipeline against the modelled upstream:
enrich, build the payload, submit, map the outcome to an HTTP status.
Returns the status and the upstream registry afterwards. -/
def createPipeline (reg : List Registration) (realm : String) (clientData : ClientData)
    (actor newId : String) : Nat × List Registration :=
  let body := forwardedCreateBody clientData actor
  let o := upstreamCreate reg realm body newId
  (createStatus (keycloakCreateResult realm body.clientId o.1), o.2)

/-! ## The claim / take-ownership protocol

The frontend calls POST `/take-ownership` (api client `takeOwnership`),
but the server-side handler is not among the provided sources; it is
modelled from spec §4.3. -/

/-- The selector of a claim: exactly one of `clientId` or `name`. -/
inductive ClaimSelector where
  | byClientId (clientId : String)
  | byName (name : String)
  deriving Repr, DecidableEq

/-- A candidate in an ambiguous claim: {id, clientId, name}. -/
structure ClaimCandidate where
  id : String
  clientId : String
  name : Option String
  deriving Repr, DecidableEq

/-- The outcome of a claim. -/
inductive ClaimOutcome where
  | notFound
  | ambiguous (candidates : List ClaimCandidate)
  | claimed (id clientId : String) (name : Option String) (attributes : Attrs)
  deriving Repr, DecidableEq

/-- The attribute mutation of a successful claim (spec §4.3 step 3):
set `createdByTag = "inherited"`, `inheritedBy = actor`,
`inheritedAt = now`; other keys (in particular `createdBy`) are
preserved. -/
def claimAttrs (a : Attrs) (actor now : String) : Attrs :=
  attrsSet (attrsSet (attrsSet a "createdByTag" "inherited") "inheritedBy" actor)
    "inheritedAt" now

/-- Modelled from the spec: the server-side handler of POST
`/take-ownership` (spec §4.3) is absent from the provided sources (only
the frontend `KeycloakApiClient.takeOwnership` caller exists). A
clientId selector is an exact lookup; a name selector lists all
case-sensitive exact matches and fails `Ambiguous` with the full
candidate set when more than one matches. On a unique match the
registration's attributes are rewritten by `claimAttrs` and persisted;
otherwise the registry is unchanged. -/
def takeOwnership (reg : List Registration) (realm actor now : String)
    (sel : ClaimSelector) : ClaimOutcome × List Registration :=
  let finish (r : Registration) : ClaimOutcome × List Registration :=
    let r' := { r with attributes := claimAttrs r.attributes actor now }
    (.claimed r'.id r'.clientId r'.name r'.attributes,
      reg.map (fun x => if x.id == r.id then r' else x))
  match sel with
  | .byClientId cid =>
    match reg.find? (fun r => r.realm == realm && r.clientId == cid) with
    | none => (.notFound, reg)
    | some r => finish r
  | .byName n =>
    match reg.filter (fun r => r.realm == realm && r.name == some n) with
    | [] => (.notFound, reg)
    | [r] => finish r
    | ms =>
      (.ambiguous (ms.map (fun r => { id := r.id, clientId := r.clientId, name := r.name })),
        reg)

/-! ## The secret-event ledger

The `keycloak_client_secret_history` table (`router.ts` lines 29–40):
auto-incrementing `id`, `realm`, `client_id`, `created_by`, `action`,
nullable `secret_last4`, `created_at` timestamp. The table is modelled
as a list of rows in insertion order. -/

/-- One row of `keycloak_client_secret_history`. -/
structure SecretRow where
  id : Nat
  realm : String
  client_id : String
  created_by : String
  action : String
  secret_last4 : Option String
  created_at : Int
  deriving Repr, DecidableEq

/-- The WHERE clause of the secret-history query (`router.ts` line
222): `{ realm, client_id: id, created_by: createdBy }`. -/
def rowMatches (realm clientId actor : String) (r : SecretRow) : Bool :=
  r.realm == realm && r.client_id == clientId && r.created_by == actor

/-- Stable insertion for a descending sort on `created_at`: the new
element goes before the first element whose timestamp it reaches, so
rows with equal timestamps keep their relative order. -/
def insertByCreatedAtDesc (x : SecretRow) : List SecretRow → List SecretRow
  | [] => [x]
  | y :: ys =>
    if y.created_at ≤ x.created_at then x :: y :: ys
    else y :: insertByCreatedAtDesc x ys

/-- Stable descending sort on `created_at`, the model of the query's
`orderBy('created_at', 'desc')`. The query names no secondary sort
key, so rows with equal timestamps are returned in storage (insertion)
order, which stable sorting preserves. -/
def sortByCreatedAtDesc : List SecretRow → List SecretRow
  | [] => []
  | x :: xs => insertByCreatedAtDesc x (sortByCreatedAtDesc xs)

/-- The GET /clients/:id/secret-history query (`router.ts` lines
220–223): filter by realm, client id and the requesting actor, then
order by `created_at` descending. -/
def historyQuery (table : List SecretRow) (realm clientId actor : String) :
    List SecretRow :=
  sortByCreatedAtDesc (table.filter (rowMatches realm clientId actor))

/-! ## The secret-rotation handler -/

/-- JS `typeof secret === 'string' && secret.length >= 4 ?
secret.slice(-4) : null` (`router.ts` line 196): `none` input models a
non-string `secret`, and `slice(-4)` is the final 4-character suffix. -/
def jsLast4 (secret : Option String) : Option String :=
  match secret with
  | some s => if 4 ≤ s.data.length then some ⟨s.data.drop (s.data.length - 4)⟩ else none
  | none => none

/-- The upstream per-client secret store: (realm, client id) → current
secret. -/
abbrev SecretStore := List ((String × String) × String)

/-- Replacing a client's secret in the upstream store after a
successful POST to `/clients/{id}/client-secret`. -/
def setSecret (s : SecretStore) (realm id secret : String) : SecretStore :=
  s.filter (fun p => p.1 != (realm, id)) ++ [((realm, id), secret)]

/-- The upstream store's current secret for a client. -/
def getSecret (s : SecretStore) (realm id : String) : Option String :=
  (s.find? (fun p => p.1 == (realm, id))).map (·.2)

/-- The JSON an Express handler sends back: a status code plus the
`secret` field of a success body and the `error` field of a failure
body (each `none` when the body lacks the key). -/
structure HttpResponse where
  status : Nat
  secret : Option String
  error : Option String
  deriving Repr, DecidableEq

/-- The environment of one POST /clients/:id/secret request: what the
upstream regeneration returns (`ok none` models a non-string
`response.data.value`), and whether / how the knex insert fails. -/
structure RotateEnv where
  regen : Except String (Option String)
  ledgerOk : Bool
  ledgerErrMsg : String
  deriving Repr

/-- The POST /clients/:id/secret handler (`router.ts` lines 187–211)
against the modelled upstream store and ledger: regenerate the secret
upstream, compute the last-4 suffix, insert a `regenerated` ledger row,
and respond `{secret}`; any thrown error (from the regeneration or from
the insert) falls into the single catch and yields a 500 `{error}`
response. A successful regeneration mutates the upstream store before
the insert runs, and nothing rolls it back. -/
def rotateSecretHandler (secrets : SecretStore) (ledger : List SecretRow)
    (realm id actor : String) (env : RotateEnv) (nextId : Nat) (now : Int) :
    HttpResponse × SecretStore × List SecretRow :=
  match env.regen with
  | .error msg =>
    ({ status := 500, secret := none,
       error := some ("Failed to regenerate client secret: " ++ msg) },
      secrets, ledger)
  | .ok newSecret =>
    let secrets' := match newSecret with
      | some s => setSecret secrets realm id s
      | none => secrets
    if env.ledgerOk then
      let row : SecretRow :=
        { id := nextId, realm := realm, client_id := id, created_by := actor,
          action := "regenerated", secret_last4 := jsLast4 newSecret,
          created_at := now }
      ({ status := 200, secret := newSecret, error := none },
        secrets', ledger ++ [row])
    else
      ({ status := 500, secret := none, error := some env.ledgerErrMsg },
        secrets', ledger)

/-! ## Helper lemmas -/

theorem jsOrBool_true (x : Option Bool) : jsOrBool x true = true := by
  cases x with
  | none => rfl
  | some b => cases b <;> rfl

theorem tokenCacheValid_some (tok : String) (e now : Int) (h1 : tok ≠ "") (h2 : e ≠ 0)
    (h3 : now < e) : tokenCacheValid ⟨some tok, some e⟩ now = true := by
  simp [tokenCacheValid, h1, h2, h3]

theorem getAccessToken_hit (tok : String) (e now : Int) (resp : TokenResponse)
    (h1 : tok ≠ "") (h2 : e ≠ 0) (h3 : now < e) :
    getAccessToken ⟨some tok, some e⟩ now resp = (Except.ok tok, ⟨some tok, some e⟩, 0) := by
  simp [getAccessToken, tokenCacheValid_some tok e now h1 h2 h3]

theorem runGetToken_cached (tok : String) (e : Int) (calls : List (Int × TokenResponse))
    (h1 : tok ≠ "") (h2 : e ≠ 0) (h : ∀ p ∈ calls, p.1 < e) :
    runGetToken ⟨some tok, some e⟩ calls = (⟨some tok, some e⟩, 0) := by
  induction calls with
  | nil => rfl
  | cons c rest ih =>
    have hc : c.1 < e := h c (List.mem_cons_self c rest)
    have hrest : ∀ p ∈ rest, p.1 < e := fun p hp => h p (List.mem_cons_of_mem c hp)
    simp [runGetToken, getAccessToken_hit tok e c.1 c.2 h1 h2 hc, ih hrest]

theorem attrsGet_set_self (a : Attrs) (k v : String) :
    attrsGet (attrsSet a k v) k = some v := by
  induction a with
  | nil => simp [attrsGet, attrsSet]
  | cons p rest ih =>
    by_cases h : p.1 = k
    · simpa [attrsSet, h] using ih
    · simpa [attrsSet, attrsGet, h] using ih

theorem attrsGet_cons (p : String × String) (rest : Attrs) (k' : String) :
    attrsGet (p :: rest) k' = if p.1 == k' then some p.2 else attrsGet rest k' := by
  by_cases h : (p.1 == k') = true
  · simp [attrsGet, List.find?_cons_of_pos, h]
  · simp [attrsGet, List.find?_cons_of_neg, h]

theorem attrsGet_set_other (a : Attrs) (k v k' : String) (h : k' ≠ k) :
    attrsGet (attrsSet a k v) k' = attrsGet a k' := by
  induction a with
  | nil =>
    have hkk : ¬(k == k') = true := by simp; exact fun hc => h hc.symm
    simp [attrsGet, attrsSet, hkk]
  | cons p rest ih =>
    by_cases hp : p.1 = k
    · have hne : ¬(p.1 == k') = true := by
        simp [hp]; exact fun hc => h hc.symm
      have hstep : attrsSet (p :: rest) k v = attrsSet rest k v := by
        simp [attrsSet, hp]
      rw [hstep, ih, attrsGet_cons, if_neg hne]
    · have hstep : attrsSet (p :: rest) k v = p :: attrsSet rest k v := by
        simp [attrsSet, hp]
      rw [hstep, attrsGet_cons, attrsGet_cons, ih]

theorem find?_of_filter_singleton {α : Type} (p : α → Bool) (l : List α) (r : α)
    (h : l.filter p = [r]) : l.find? p = some r := by
  induction l with
  | nil => simp at h
  | cons a rest ih =>
    by_cases hp : p a = true
    · rw [List.filter_cons_of_pos hp] at h
      obtain ⟨h1, _⟩ := List.cons.inj h
      subst h1
      simp [List.find?_cons_of_pos, hp]
    · rw [List.filter_cons_of_neg (by simpa using hp)] at h
      rw [List.find?_cons_of_neg _ (by simpa using hp), ih h]

theorem isPrefixOf_self_append (l t : List Char) : l.isPrefixOf (l ++ t) = true := by
  induction l with
  | nil => simp [List.isPrefixOf]
  | cons a as ih => simpa [List.isPrefixOf] using ih

theorem isInfixOfB_self_append (pat post : List Char) :
    isInfixOfB pat (pat ++ post) = true := by
  cases hl : pat ++ post with
  | nil =>
    have hpat : pat = [] := by
      cases pat with
      | nil => rfl
      | cons a as => simp at hl
    subst hpat
    simp [isInfixOfB]
  | cons c rest =>
    have : pat.isPrefixOf (c :: rest) = true := by
      rw [← hl]; exact isPrefixOf_self_append pat post
    simp [isInfixOfB, this]

theorem isInfixOfB_append3 (pat pre post : List Char) :
    isInfixOfB pat (pre ++ pat ++ post) = true := by
  induction pre with
  | nil => simpa using isInfixOfB_self_append pat post
  | cons c pre' ih =>
    simp only [List.cons_append]
    rw [show isInfixOfB pat (c :: (pre' ++ pat ++ post))
        = (pat.isPrefixOf (c :: (pre' ++ pat ++ post))
            || isInfixOfB pat (pre' ++ pat ++ post)) from rfl,
      ih, Bool.or_true]

theorem conflictMessage_includes (cid realm : String) :
    jsIncludes ("Client " ++ cid ++ " already exists in realm " ++ realm)
      "already exists" = true := by
  have hsplit : (" already exists in realm ").data
      = (" ").data ++ ("already exists").data ++ (" in realm ").data := by decide
  have hdecomp : ("Client " ++ cid ++ " already exists in realm " ++ realm).data
      = (("Client ").data ++ cid.data ++ (" ").data) ++ ("already exists").data
        ++ ((" in realm ").data ++ realm.data) := by
    simp [String.data_append, hsplit, List.append_assoc]
  rw [jsIncludes, hdecomp]
  exact isInfixOfB_append3 _ _ _

theorem getSecret_setSecret (st : SecretStore) (realm id s : String) :
    getSecret (setSecret st realm id s) realm id = some s := by
  induction st with
  | nil => simp [getSecret, setSecret]
  | cons p rest ih =>
    by_cases h : p.1 = (realm, id)
    · simpa [setSecret, h] using ih
    · simpa [setSecret, getSecret, h] using ih

theorem mem_insertByCreatedAtDesc (x a : SecretRow) (l : List SecretRow) :
    a ∈ insertByCreatedAtDesc x l ↔ a = x ∨ a ∈ l := by
  induction l with
  | nil => simp [insertByCreatedAtDesc]
  | cons y ys ih =>
    by_cases h : y.created_at ≤ x.created_at
    · simp [insertByCreatedAtDesc, h]
    · simp [insertByCreatedAtDesc, h, ih]
      tauto

theorem mem_sortByCreatedAtDesc (a : SecretRow) (l : List SecretRow) :
    a ∈ sortByCreatedAtDesc l ↔ a ∈ l := by
  induction l with
  | nil => simp [sortByCreatedAtDesc]
  | cons x xs ih =>
    simp [sortByCreatedAtDesc, mem_insertByCreatedAtDesc, ih]

theorem pairwise_insertByCreatedAtDesc (x : SecretRow) (l : List SecretRow)
    (h : l.Pairwise (fun a b => b.created_at ≤ a.created_at)) :
    (insertByCreatedAtDesc x l).Pairwise (fun a b => b.created_at ≤ a.created_at) := by
  induction l with
  | nil => simp [insertByCreatedAtDesc]
  | cons y ys ih =>
    rw [List.pairwise_cons] at h
    by_cases hc : y.created_at ≤ x.created_at
    · rw [insertByCreatedAtDesc, if_pos hc]
      refine List.pairwise_cons.mpr ⟨?_, List.pairwise_cons.mpr h⟩
      intro b hb
      rcases List.mem_cons.mp hb with hb | hb
      · rw [hb]; exact hc
      · exact le_trans (h.1 b hb) hc
    · rw [insertByCreatedAtDesc, if_neg hc]
      refine List.pairwise_cons.mpr ⟨?_, ih h.2⟩
      intro b hb
      rcases (mem_insertByCreatedAtDesc x b ys).mp hb with hb | hb
      · rw [hb]; exact le_of_lt (lt_of_not_le hc)
      · exact h.1 b hb

theorem pairwise_sortByCreatedAtDesc (l : List SecretRow) :
    (sortByCreatedAtDesc l).Pairwise (fun a b => b.created_at ≤ a.created_at) := by
  induction l with
  | nil => simp [sortByCreatedAtDesc]
  | cons x xs ih => exact pairwise_insertByCreatedAtDesc x _ ih

theorem filter_insertByCreatedAtDesc (x : SecretRow) (l : List SecretRow) (t : Int) :
    (insertByCreatedAtDesc x l).filter (fun r => r.created_at == t)
      = if x.created_at == t
        then x :: l.filter (fun r => r.created_at == t)
        else l.filter (fun r => r.created_at == t) := by
  induction l with
  | nil =>
    by_cases h : (x.created_at == t) = true
    · simp [insertByCreatedAtDesc, h]
    · simp [insertByCreatedAtDesc, h]
  | cons y ys ih =>
    by_cases hc : y.created_at ≤ x.created_at
    · rw [insertByCreatedAtDesc, if_pos hc]
      by_cases hx : (x.created_at == t) = true
      · simp [List.filter_cons, hx]
      · simp [List.filter_cons, hx]
    · have hlt : x.created_at < y.created_at := lt_of_not_le hc
      rw [insertByCreatedAtDesc, if_neg hc]
      by_cases hy : (y.created_at == t) = true
      · have hxt : ¬(x.created_at == t) = true := by
          simp only [beq_iff_eq] at hy ⊢
          omega
        simp [List.filter_cons, hy, hxt, ih]
      · simp [List.filter_cons, hy, ih]

theorem filter_sortByCreatedAtDesc (l : List SecretRow) (t : Int) :
    (sortByCreatedAtDesc l).filter (fun r => r.created_at == t)
      = l.filter (fun r => r.created_at == t) := by
  induction l with
  | nil => simp [sortByCreatedAtDesc]
  | cons x xs ih =>
    rw [sortByCreatedAtDesc, filter_insertByCreatedAtDesc]
    by_cases hx : (x.created_at == t) = true
    · simp [List.filter_cons, hx, ih]
    · simp [List.filter_cons, hx, ih]

/-! ## Claim theorems -/

/-- C1: the claim states that the registration forwarded to the upstream IdP
carries `attributes.createdBy = actor`, preserving other caller-supplied
attributes. The code contradicts this: the router's enrichment does set
`createdBy` (first conjunct), but `KeycloakService.createClient` rebuilds
the upstream payload from a fixed field list that omits `attributes`, so
the body actually forwarded to the IdP carries no attributes at all —
evaluated at create(realm, {clientId: "svc-a", attributes: {team: "x"}},
actor "u1"), and in general for every input. -/
theorem c1_forwarded_payload_drops_attributes :
    attrsGet ((routerEnrich { clientId := "svc-a", attributes := some [("team", "x")] }
        "u1").attributes.getD []) "createdBy" = some "u1" ∧
    (forwardedCreateBody { clientId := "svc-a", attributes := some [("team", "x")] }
        "u1").attributes = none ∧
    (∀ (cd : ClientData) (actor : String),
      (forwardedCreateBody cd actor).attributes = none) :=
  ⟨rfl, rfl, fun _ _ => rfl⟩

/-- C10: for every input to `createClient` the forwarded payload has
`directAccessGrantsEnabled = true` and `standardFlowEnabled = true`
(the `x || true` defaulting forces them even when the caller passes
`false`), and `redirectUris` / `webOrigins` default to `["*"]` when the
caller omits them. -/
theorem c10_create_payload_flag_forcing :
    ∀ cd : ClientData,
      (buildCreatePayload cd).directAccessGrantsEnabled = true ∧
      (buildCreatePayload cd).standardFlowEnabled = true ∧
      (cd.redirectUris = none → (buildCreatePayload cd).redirectUris = ["*"]) ∧
      (cd.webOrigins = none → (buildCreatePayload cd).webOrigins = ["*"]) := by
  intro cd
  refine ⟨jsOrBool_true _, jsOrBool_true _, ?_, ?_⟩ <;>
    intro h <;> simp [buildCreatePayload, h]

/-- Witness for C10 at a caller that explicitly passes `false` for both
flags and omits the URI lists. -/
theorem c10_create_payload_flag_forcing_witness :
    (buildCreatePayload { clientId := "a", directAccessGrantsEnabled := some false, standardFlowEnabled := some false }).directAccessGrantsEnabled = true ∧
    (buildCreatePayload { clientId := "a", directAccessGrantsEnabled := some false, standardFlowEnabled := some false }).standardFlowEnabled = true ∧
    (buildCreatePayload { clientId := "a", directAccessGrantsEnabled := some false, standardFlowEnabled := some false }).redirectUris = ["*"] ∧
    (buildCreatePayload { clientId := "a", directAccessGrantsEnabled := some false, standardFlowEnabled := some false }).webOrigins = ["*"] := by
  have h := c10_create_payload_flag_forcing { clientId := "a", directAccessGrantsEnabled := some false, standardFlowEnabled := some false }
  exact ⟨h.1, h.2.1, h.2.2.1 rfl, h.2.2.2 rfl⟩

/-- C8 counterexample: the claim states every token returned by
`getAccessToken` has its expiry at least 60 seconds in the future at the
moment of return. With a cached token expiring at 1000 ms and a call at
999 ms, the cached token is returned (cache hit) while its recorded
expiry is only 1 ms away — not 60 s. -/
theorem c8_margin_counterexample :
    (getAccessToken ⟨some "t", some 1000⟩ 999 ⟨true, "n", 3600, ""⟩).1 = Except.ok "t" ∧
    (getAccessToken ⟨some "t", some 1000⟩ 999
        ⟨true, "n", 3600, ""⟩).2.1.tokenExpiryTime = some 1000 ∧
    ¬(999 + 60 * 1000 ≤ (1000 : Int)) := by
  refine ⟨?_, ?_, by decide⟩ <;> rfl

/-- C8 (amended): on a refresh the recorded expiry is computed as
`now + (expires_in − 60) · 1000` ms — i.e. the 60-second safety margin is
subtracted from the issued lifetime, so the upstream token outlives the
recorded expiry by 60 s; a cache hit merely guarantees `now < expiresAt`
for the returned token (the state is returned unchanged), not a 60-second
margin on the recorded expiry itself. -/
theorem c8_expiry_computation (st : TokenState) (now : Int) (resp : TokenResponse) :
    (tokenCacheValid st now = false → resp.ok = true →
      (getAccessToken st now resp).2.1.tokenExpiryTime
        = some (now + (resp.expiresIn - 60) * 1000)) ∧
    (tokenCacheValid st now = true →
      ∃ e, st.tokenExpiryTime = some e ∧ now < e ∧ (getAccessToken st now resp).2.1 = st) := by
  constructor
  · intro h1 h2
    simp [getAccessToken, h1, h2]
  · intro h
    rcases st with ⟨a, ex⟩
    cases a with
    | none => simp [tokenCacheValid] at h
    | some tok =>
      cases ex with
      | none => simp [tokenCacheValid] at h
      | some e =>
        simp only [tokenCacheValid, bne_iff_ne, ne_eq, Bool.and_eq_true,
          decide_eq_true_eq] at h
        obtain ⟨⟨h1, h2⟩, h3⟩ := h
        exact ⟨e, rfl, h3,
          by simp [getAccessToken, tokenCacheValid, h1, h2, h3]⟩

/-- Witness for C8: a refresh from the empty cache at time 0 with
`expires_in = 3600` records expiry `0 + (3600 − 60) · 1000`; a cache hit
at time 10 against expiry 5000 returns the state unchanged. -/
theorem c8_expiry_computation_witness :
    (getAccessToken ⟨none, none⟩ 0 ⟨true, "t", 3600, ""⟩).2.1.tokenExpiryTime
      = some (0 + (3600 - 60) * 1000) ∧
    (∃ e, (⟨some "tok", some 5000⟩ : TokenState).tokenExpiryTime = some e ∧ (10 : Int) < e ∧
      (getAccessToken ⟨some "tok", some 5000⟩ 10 ⟨true, "t", 3600, ""⟩).2.1
        = ⟨some "tok", some 5000⟩) := by
  exact ⟨(c8_expiry_computation ⟨none, none⟩ 0 ⟨true, "t", 3600, ""⟩).1 rfl rfl,
    (c8_expiry_computation ⟨some "tok", some 5000⟩ 10 ⟨true, "t", 3600, ""⟩).2 rfl⟩

/-- C9 counterexample: the claim states a failed refresh leaves the
cached token cleared. After a failed refresh at time 1000 over a stale
token (expiry 500), the cached `accessToken` is still `some "old"`, not
`none` — the catch branch never clears the fields. -/
theorem c9_not_cleared_counterexample :
    (getAccessToken ⟨some "old", some 500⟩ 1000
        ⟨false, "", 0, "boom"⟩).2.1.accessToken = some "old" ∧
    (some "old" : Option String) ≠ none := by
  exact ⟨rfl, by simp⟩

/-- C9 (amended): when the cached token is invalid and the upstream token
endpoint fails, `getAccessToken` fails with the authentication error,
issues exactly one upstream request (no internal retry), and leaves the
cached state unchanged — the stale token is retained rather than
cleared, but since it stays invalid every subsequent call attempts a
fresh refresh anyway. -/
theorem c9_failed_refresh_behavior (st : TokenState) (now : Int) (resp : TokenResponse)
    (hv : tokenCacheValid st now = false) (hfail : resp.ok = false) :
    getAccessToken st now resp
      = (Except.error ("Failed to authenticate with Keycloak: " ++ resp.errMsg), st, 1) ∧
    (∀ (now2 : Int) (resp2 : TokenResponse), tokenCacheValid st now2 = false →
      (getAccessToken st now2 resp2).2.2 = 1) := by
  constructor
  · simp [getAccessToken, hv, hfail]
  · intro now2 resp2 h2
    by_cases hok : resp2.ok = true <;> simp [getAccessToken, h2, hok]

/-- Witness for C9 at a stale cache and a failing endpoint. -/
theorem c9_failed_refresh_behavior_witness :
    getAccessToken ⟨some "old", some 500⟩ 1000 ⟨false, "t", 0, "x"⟩
      = (Except.error ("Failed to authenticate with Keycloak: " ++ "x"),
          ⟨some "old", some 500⟩, 1) ∧
    (getAccessToken ⟨some "old", some 500⟩ 2000 ⟨true, "t", 60, "y"⟩).2.2 = 1 := by
  have h := c9_failed_refresh_behavior ⟨some "old", some 500⟩ 1000 ⟨false, "t", 0, "x"⟩
    (by rfl) rfl
  exact ⟨h.1, h.2 2000 ⟨true, "t", 60, "y"⟩ (by rfl)⟩

/-- C2: when a cached admin token exists (truthy fields) and
`now < expiresAt`, `getAccessToken` returns the cached token with no
upstream request and an unchanged state; consequently, starting from the
empty cache, a successful first call followed by any sequence of calls
whose times fall inside the acquired token's validity window issues
exactly one upstream authentication request in total. -/
theorem c2_token_cache_single_flight :
    (∀ (tok : String) (e now : Int) (resp : TokenResponse),
      tok ≠ "" → e ≠ 0 → now < e →
      getAccessToken ⟨some tok, some e⟩ now resp
        = (Except.ok tok, ⟨some tok, some e⟩, 0)) ∧
    (∀ (t1 : Int) (r1 : TokenResponse) (rest : List (Int × TokenResponse)),
      r1.ok = true → r1.accessToken ≠ "" →
      t1 + (r1.expiresIn - 60) * 1000 ≠ 0 →
      (∀ p ∈ rest, p.1 < t1 + (r1.expiresIn - 60) * 1000) →
      (runGetToken ⟨none, none⟩ ((t1, r1) :: rest)).2 = 1) := by
  constructor
  · exact fun tok e now resp h1 h2 h3 => getAccessToken_hit tok e now resp h1 h2 h3
  · intro t1 r1 rest hok htok hE hrest
    have hfirst : getAccessToken ⟨none, none⟩ t1 r1
        = (Except.ok r1.accessToken,
            ⟨some r1.accessToken, some (t1 + (r1.expiresIn - 60) * 1000)⟩, 1) := by
      simp [getAccessToken, tokenCacheValid, hok]
    simp [runGetToken, hfirst,
      runGetToken_cached r1.accessToken (t1 + (r1.expiresIn - 60) * 1000) rest htok hE hrest]

/-- Witness for C2: a cache hit at time 10 against expiry 5000, and a
three-call sequence (one successful acquisition at time 0 with
`expires_in` 3600, then two calls inside the window) issuing exactly one
request. -/
theorem c2_token_cache_single_flight_witness :
    getAccessToken ⟨some "tok", some 5000⟩ 10 ⟨true, "n", 60, "e"⟩
      = (Except.ok "tok", ⟨some "tok", some 5000⟩, 0) ∧
    (runGetToken ⟨none, none⟩ [(0, ⟨true, "tok", 3600, "e"⟩),
        (1000, ⟨true, "z", 3600, "e"⟩), (3539999, ⟨false, "", 0, "e"⟩)]).2 = 1 := by
  constructor
  · exact c2_token_cache_single_flight.1 "tok" 5000 10 ⟨true, "n", 60, "e"⟩
      (by decide) (by decide) (by decide)
  · exact c2_token_cache_single_flight.2 0 ⟨true, "tok", 3600, "e"⟩
      [(1000, ⟨true, "z", 3600, "e"⟩), (3539999, ⟨false, "", 0, "e"⟩)]
      rfl (by decide) (by decide) (by decide)

/-- C5: when `create` is called for a `clientId` that already exists in
the realm, the upstream conflict is mapped to HTTP 409 (the error
message carries `already exists`, which the router distinguishes from
generic failures, mapped to 500 when the message does not carry the
marker), and the upstream registry — including every existing
registration's attributes — is left unchanged. -/
theorem c5_duplicate_create_conflict (reg : List Registration) (realm : String)
    (cd : ClientData) (actor newId : String)
    (hdup : reg.any (fun r => r.realm == realm && r.clientId == cd.clientId) = true) :
    (createPipeline reg realm cd actor newId).1 = 409 ∧
    (createPipeline reg realm cd actor newId).2 = reg ∧
    (∀ m, jsIncludes ("Failed to create client: " ++ m) "already exists" = false →
      createStatus (keycloakCreateResult realm cd.clientId
        (UpstreamCreateOutcome.failure m)) = 500) := by
  have hcid : (forwardedCreateBody cd actor).clientId = cd.clientId := rfl
  refine ⟨?_, ?_, ?_⟩
  · simp [createPipeline, upstreamCreate, hcid, hdup, keycloakCreateResult,
      createStatus, conflictMessage_includes]
  · simp [createPipeline, upstreamCreate, hcid, hdup]
  · intro m hm
    simp [createStatus, keycloakCreateResult, hm]

/-- Witness for C5: a second create of `svc-a` in `master` (first created
by `u1`) returns 409 with the registry untouched, while a generic
failure message maps to 500. -/
theorem c5_duplicate_create_conflict_witness :
    (createPipeline [⟨"id1", "master", "svc-a", some "A", [("createdBy", "u1")]⟩]
        "master" { clientId := "svc-a" } "u2" "id2").1 = 409 ∧
    (createPipeline [⟨"id1", "master", "svc-a", some "A", [("createdBy", "u1")]⟩]
        "master" { clientId := "svc-a" } "u2" "id2").2
      = [⟨"id1", "master", "svc-a", some "A", [("createdBy", "u1")]⟩] ∧
    createStatus (keycloakCreateResult "master" "svc-a"
      (UpstreamCreateOutcome.failure "network error")) = 500 := by
  have h := c5_duplicate_create_conflict
    [⟨"id1", "master", "svc-a", some "A", [("createdBy", "u1")]⟩]
    "master" { clientId := "svc-a" } "u2" "id2" (by decide)
  exact ⟨h.1, h.2.1, h.2.2 "network error" (by decide)⟩

/-- C7 counterexample: the claim states the persisted `secretLast4` is
never the full secret. For the 4-character secret `"abcd"`,
`slice(-4)` is the entire secret, and the ledger row persisted by a
rotation stores exactly `"abcd"`. -/
theorem c7_full_secret_counterexample :
    jsLast4 (some "abcd") = some "abcd" ∧
    (rotateSecretHandler [] [] "master" "c1" "u1"
        ⟨Except.ok (some "abcd"), true, ""⟩ 1 100).2.2
      = [⟨1, "master", "c1", "u1", "regenerated", some "abcd", 100⟩] := by
  exact ⟨by decide, by decide⟩

/-- C7 (amended): the persisted `secretLast4` is never longer than 4
characters, and is a proper suffix (not the full secret) whenever the
secret is longer than 4 characters — a 4-character secret is stored
whole; a secret shorter than 4 characters (or a non-string value)
persists `null`, and the ledger row appended by a rotation carries
exactly this computed value, `null` staying `null`. -/
theorem c7_last4_bounds :
    (∀ (s out : String), jsLast4 (some s) = some out →
      out.data.length ≤ 4 ∧ (4 < s.data.length → out ≠ s)) ∧
    (∀ s : String, s.data.length < 4 → jsLast4 (some s) = none) ∧
    jsLast4 none = none ∧
    (∀ (secrets : SecretStore) (ledger : List SecretRow) (realm id actor : String)
        (v : Option String) (msg : String) (nextId : Nat) (now : Int),
      (rotateSecretHandler secrets ledger realm id actor
          ⟨Except.ok v, true, msg⟩ nextId now).2.2
        = ledger ++ [⟨nextId, realm, id, actor, "regenerated", jsLast4 v, now⟩]) := by
  refine ⟨?_, ?_, rfl, ?_⟩
  · intro s out h
    rw [jsLast4] at h
    by_cases h4 : 4 ≤ s.data.length
    · rw [if_pos h4] at h
      have hout : out = ⟨s.data.drop (s.data.length - 4)⟩ := by
        exact (Option.some.inj h).symm
      have hlen : out.data.length = 4 := by
        rw [hout]
        show (s.data.drop (s.data.length - 4)).length = 4
        rw [List.length_drop]
        omega
      refine ⟨by omega, ?_⟩
      intro hgt heq
      rw [heq] at hlen
      omega
    · rw [if_neg h4] at h
      exact absurd h (by simp)
  · intro s hs
    rw [jsLast4, if_neg (by omega)]
  · intro secrets ledger realm id actor v msg nextId now
    cases v <;> rfl

/-- Witness for C7: a 6-character secret stores the 4-character suffix
(not the whole secret), a 2-character secret stores `null`, and the
appended ledger row carries the computed value. -/
theorem c7_last4_bounds_witness :
    ("cdef" : String).data.length ≤ 4 ∧ ("cdef" : String) ≠ "abcdef" ∧
    jsLast4 (some "ab") = none ∧
    (rotateSecretHandler [] [] "r" "i" "a" ⟨Except.ok none, true, "m"⟩ 3 7).2.2
      = [] ++ [⟨3, "r", "i", "a", "regenerated", jsLast4 none, 7⟩] := by
  have h := c7_last4_bounds
  exact ⟨(h.1 "abcdef" "cdef" (by decide)).1,
    (h.1 "abcdef" "cdef" (by decide)).2 (by decide),
    h.2.1 "ab" (by decide),
    h.2.2.2 [] [] "r" "i" "a" none "m" 3 7⟩

/-- C6 counterexample: the claim states a ledger write failure after a
successful rotation yields a partial-success signal distinct from total
failure. In the code both paths fall into the same catch: a run that
rotates the secret but fails the ledger insert produces an HTTP response
equal to that of a run whose rotation itself failed (same status 500,
no secret, same error body), even though only the first run changed the
upstream secret. -/
theorem c6_plain_failure_counterexample :
    (rotateSecretHandler [(("master", "c1"), "old")] [] "master" "c1" "u1"
        ⟨Except.ok (some "newsecret1"), false,
          "Failed to regenerate client secret: timeout"⟩ 7 100).1
      = (rotateSecretHandler [(("master", "c1"), "old")] [] "master" "c1" "u1"
          ⟨Except.error "timeout", true, ""⟩ 7 100).1 ∧
    (rotateSecretHandler [(("master", "c1"), "old")] [] "master" "c1" "u1"
        ⟨Except.ok (some "newsecret1"), false,
          "Failed to regenerate client secret: timeout"⟩ 7 100).2.1
      ≠ (rotateSecretHandler [(("master", "c1"), "old")] [] "master" "c1" "u1"
          ⟨Except.error "timeout", true, ""⟩ 7 100).2.1 ∧
    (rotateSecretHandler [(("master", "c1"), "old")] [] "master" "c1" "u1"
        ⟨Except.ok (some "newsecret1"), false,
          "Failed to regenerate client secret: timeout"⟩ 7 100).1.status = 500 := by
  exact ⟨by decide, by decide, by decide⟩

/-- C6 (amended): when the ledger insert fails after a successful
rotation, the already-performed upstream rotation is not rolled back —
the new secret remains in the upstream store and no ledger row is
written — but the handler responds with a plain 500 error body (no
secret, only the error message), not a distinguishable partial-success
signal. -/
theorem c6_ledger_failure_no_rollback (secrets : SecretStore) (ledger : List SecretRow)
    (realm id actor : String) (env : RotateEnv) (nextId : Nat) (now : Int) (s : String)
    (hreg : env.regen = Except.ok (some s)) (hfail : env.ledgerOk = false) :
    rotateSecretHandler secrets ledger realm id actor env nextId now
      = (⟨500, none, some env.ledgerErrMsg⟩, setSecret secrets realm id s, ledger) ∧
    getSecret (setSecret secrets realm id s) realm id = some s := by
  obtain ⟨r, lok, lmsg⟩ := env
  simp only at hreg hfail
  subst hreg
  subst hfail
  exact ⟨rfl, getSecret_setSecret secrets realm id s⟩

/-- Witness for C6 at a concrete rotated-then-ledger-lost run. -/
theorem c6_ledger_failure_no_rollback_witness :
    rotateSecretHandler [] [] "m" "c" "u"
        ⟨Except.ok (some "s3cr3tvalue"), false, "disk full"⟩ 1 5
      = (⟨500, none, some "disk full"⟩, setSecret [] "m" "c" "s3cr3tvalue", []) ∧
    getSecret (setSecret [] "m" "c" "s3cr3tvalue") "m" "c" = some "s3cr3tvalue" :=
  c6_ledger_failure_no_rollback [] [] "m" "c" "u"
    ⟨Except.ok (some "s3cr3tvalue"), false, "disk full"⟩ 1 5 "s3cr3tvalue" rfl rfl

/-- C4 counterexample: the claim states history ordering breaks
equal-timestamp ties by the monotonically increasing id (newest first,
so the higher id would come first). The query orders by `created_at`
descending only; two matching rows with equal timestamps and ids 1 and 2
are returned in storage order [id 1, id 2], not [id 2, id 1]. -/
theorem c4_tie_order_counterexample :
    historyQuery [⟨1, "master", "c", "u1", "regenerated", some "ab12", 100⟩,
        ⟨2, "master", "c", "u1", "regenerated", some "cd34", 100⟩] "master" "c" "u1"
      = [⟨1, "master", "c", "u1", "regenerated", some "ab12", 100⟩,
          ⟨2, "master", "c", "u1", "regenerated", some "cd34", 100⟩] ∧
    historyQuery [⟨1, "master", "c", "u1", "regenerated", some "ab12", 100⟩,
        ⟨2, "master", "c", "u1", "regenerated", some "cd34", 100⟩] "master" "c" "u1"
      ≠ [⟨2, "master", "c", "u1", "regenerated", some "cd34", 100⟩,
          ⟨1, "master", "c", "u1", "regenerated", some "ab12", 100⟩] := by
  exact ⟨by decide, by decide⟩

/-- C4 (amended): `historyQuery` returns exactly the rows whose realm,
client id and author match (other actors' events excluded), ordered by
`created_at` descending; the query specifies no secondary key, so rows
with equal timestamps keep the table's insertion order (ascending id for
a monotonically assigned id column) rather than being reordered. -/
theorem c4_history_query_characterization (table : List SecretRow)
    (realm clientId actor : String) :
    (∀ r, r ∈ historyQuery table realm clientId actor ↔
      (r ∈ table ∧ r.realm = realm ∧ r.client_id = clientId ∧ r.created_by = actor)) ∧
    (historyQuery table realm clientId actor).Pairwise
      (fun a b => b.created_at ≤ a.created_at) ∧
    (∀ t : Int, (historyQuery table realm clientId actor).filter
        (fun r => r.created_at == t)
      = (table.filter (rowMatches realm clientId actor)).filter
          (fun r => r.created_at == t)) := by
  refine ⟨?_, ?_, ?_⟩
  · intro r
    rw [historyQuery, mem_sortByCreatedAtDesc, List.mem_filter]
    simp [rowMatches, and_assoc]
  · exact pairwise_sortByCreatedAtDesc (table.filter (rowMatches realm clientId actor))
  · intro t
    exact filter_sortByCreatedAtDesc (table.filter (rowMatches realm clientId actor)) t

/-- Witness for C4: a matching row is returned by the query. -/
theorem c4_history_query_characterization_witness :
    (⟨1, "m", "c", "u", "regenerated", none, 5⟩ : SecretRow)
      ∈ historyQuery [⟨1, "m", "c", "u", "regenerated", none, 5⟩] "m" "c" "u" := by
  exact ((c4_history_query_characterization
      [⟨1, "m", "c", "u", "regenerated", none, 5⟩] "m" "c" "u").1
    ⟨1, "m", "c", "u", "regenerated", none, 5⟩).mpr
    ⟨by decide, rfl, rfl, rfl⟩

/-- C3 (modelled from the spec, §4.3): a claim by `clientId` with no
matching registration in the realm fails NotFound with the registry
unchanged; with a unique match the registration's attributes are updated
(`inheritedBy` and `inheritedAt` set, `createdByTag = "inherited"`,
`createdBy` preserved); a claim by `name` matching more than one
registration fails Ambiguous carrying the full candidate set
{id, clientId, name}, with no registration mutated. -/
theorem c3_claim_protocol :
    (∀ (reg : List Registration) (realm actor now cid : String),
      (∀ r ∈ reg, ¬(r.realm = realm ∧ r.clientId = cid)) →
      takeOwnership reg realm actor now (ClaimSelector.byClientId cid)
        = (ClaimOutcome.notFound, reg)) ∧
    (∀ (reg : List Registration) (realm actor now cid : String) (r : Registration),
      reg.filter (fun x => x.realm == realm && x.clientId == cid) = [r] →
      takeOwnership reg realm actor now (ClaimSelector.byClientId cid)
        = (ClaimOutcome.claimed r.id r.clientId r.name (claimAttrs r.attributes actor now),
            reg.map (fun x => if x.id == r.id
              then { r with attributes := claimAttrs r.attributes actor now } else x)) ∧
      attrsGet (claimAttrs r.attributes actor now) "inheritedBy" = some actor ∧
      attrsGet (claimAttrs r.attributes actor now) "inheritedAt" = some now ∧
      attrsGet (claimAttrs r.attributes actor now) "createdByTag" = some "inherited" ∧
      attrsGet (claimAttrs r.attributes actor now) "createdBy"
        = attrsGet r.attributes "createdBy") ∧
    (∀ (reg : List Registration) (realm actor now n : String)
        (r1 r2 : Registration) (rest : List Registration),
      reg.filter (fun x => x.realm == realm && x.name == some n) = r1 :: r2 :: rest →
      takeOwnership reg realm actor now (ClaimSelector.byName n)
        = (ClaimOutcome.ambiguous ((r1 :: r2 :: rest).map
            (fun r => ⟨r.id, r.clientId, r.name⟩)), reg)) := by
  refine ⟨?_, ?_, ?_⟩
  · intro reg realm actor now cid h
    have hf : reg.find? (fun r => r.realm == realm && r.clientId == cid) = none := by
      rw [List.find?_eq_none]
      intro x hx
      simp only [Bool.and_eq_true, beq_iff_eq]
      exact fun hc => h x hx hc
    simp [takeOwnership, hf]
  · intro reg realm actor now cid r hfilter
    have hf := find?_of_filter_singleton _ reg r hfilter
    refine ⟨?_, ?_, ?_, ?_, ?_⟩
    · simp [takeOwnership, hf]
    · rw [claimAttrs, attrsGet_set_other _ _ _ _ (by decide), attrsGet_set_self]
    · rw [claimAttrs, attrsGet_set_self]
    · rw [claimAttrs, attrsGet_set_other _ _ _ _ (by decide),
        attrsGet_set_other _ _ _ _ (by decide), attrsGet_set_self]
    · rw [claimAttrs, attrsGet_set_other _ _ _ _ (by decide),
        attrsGet_set_other _ _ _ _ (by decide), attrsGet_set_other _ _ _ _ (by decide)]
  · intro reg realm actor now n r1 r2 rest hfilter
    simp only [takeOwnership]
    rw [hfilter]

/-- Witness for C3: claiming an absent clientId fails NotFound; claiming
the unique `svc-a` updates its attribution and preserves `createdBy`;
claiming the shared name `shared` over two registrations fails Ambiguous
with both candidates and no mutation. -/
theorem c3_claim_protocol_witness :
    takeOwnership [] "master" "u1" "2024-01-01T00:00:00Z" (ClaimSelector.byClientId "x")
      = (ClaimOutcome.notFound, []) ∧
    (takeOwnership [⟨"id1", "master", "svc-a", some "shared", [("createdBy", "alice")]⟩]
        "master" "u1" "2024-01-01T00:00:00Z" (ClaimSelector.byClientId "svc-a")
      = (ClaimOutcome.claimed "id1" "svc-a" (some "shared")
          (claimAttrs [("createdBy", "alice")] "u1" "2024-01-01T00:00:00Z"),
          [⟨"id1", "master", "svc-a", some "shared", [("createdBy", "alice")]⟩].map
            (fun x => if x.id == "id1"
              then ⟨"id1", "master", "svc-a", some "shared",
                claimAttrs [("createdBy", "alice")] "u1" "2024-01-01T00:00:00Z"⟩ else x)) ∧
      attrsGet (claimAttrs [("createdBy", "alice")] "u1" "2024-01-01T00:00:00Z")
        "inheritedBy" = some "u1" ∧
      attrsGet (claimAttrs [("createdBy", "alice")] "u1" "2024-01-01T00:00:00Z")
        "inheritedAt" = some "2024-01-01T00:00:00Z" ∧
      attrsGet (claimAttrs [("createdBy", "alice")] "u1" "2024-01-01T00:00:00Z")
        "createdByTag" = some "inherited" ∧
      attrsGet (claimAttrs [("createdBy", "alice")] "u1" "2024-01-01T00:00:00Z")
        "createdBy" = attrsGet [("createdBy", "alice")] "createdBy") ∧
    takeOwnership [⟨"id1", "master", "svc-a", some "shared", [("createdBy", "alice")]⟩,
        ⟨"id2", "master", "svc-b", some "shared", []⟩]
        "master" "u1" "2024-01-01T00:00:00Z" (ClaimSelector.byName "shared")
      = (ClaimOutcome.ambiguous
          (([⟨"id1", "master", "svc-a", some "shared", [("createdBy", "alice")]⟩,
              ⟨"id2", "master", "svc-b", some "shared", []⟩] : List Registration).map
            (fun r => ⟨r.id, r.clientId, r.name⟩)),
          [⟨"id1", "master", "svc-a", some "shared", [("createdBy", "alice")]⟩,
            ⟨"id2", "master", "svc-b", some "shared", []⟩]) := by
  refine ⟨?_, ?_, ?_⟩
  · exact c3_claim_protocol.1 [] "master" "u1" "2024-01-01T00:00:00Z" "x" (by simp)
  · exact c3_claim_protocol.2.1
      [⟨"id1", "master", "svc-a", some "shared", [("createdBy", "alice")]⟩]
      "master" "u1" "2024-01-01T00:00:00Z" "svc-a"
      ⟨"id1", "master", "svc-a", some "shared", [("createdBy", "alice")]⟩ (by decide)
  · exact c3_claim_protocol.2.2
      [⟨"id1", "master", "svc-a", some "shared", [("createdBy", "alice")]⟩,
        ⟨"id2", "master", "svc-b", some "shared", []⟩]
      "master" "u1" "2024-01-01T00:00:00Z" "shared"
      ⟨"id1", "master", "svc-a", some "shared", [("createdBy", "alice")]⟩
      ⟨"id2", "master", "svc-b", some "shared", []⟩ [] (by decide)

end KeycloakPlugin
